import Mathlib

/-!
Verification of the TradeScape reactive chart engine (tradeScape.py).

The development shallowly embeds the parts of the program that the
specification's claims are about: the JSON-valued configuration and
workspace state, the `update_chart` coordinator (trigger gating, config
persistence, provider dispatch and error handling, panel layout, shape
redrawing), the `update_graph_and_shapes` reducer, the save/load-work
round trip, and the numeric indicator computations (RSI, Bollinger
bands).  Python's dynamically-typed JSON data is modelled by the
inductive `JsonV`; pandas/NumPy float series are modelled over `ℚ`
(with `ℝ` only where a square root forces it), with NaN/undefined
entries made explicit through `Option`.
-/

namespace TradeScape

/-- JSON-like dynamic value, the type of Dash store contents, of the
persisted configuration and of uploaded workspace payloads.  Objects
are insertion-ordered association lists, as Python dicts are. -/
inductive JsonV where
  | null : JsonV
  | bool : Bool → JsonV
  | num : ℚ → JsonV
  | str : String → JsonV
  | arr : List JsonV → JsonV
  | obj : List (String × JsonV) → JsonV

/-- Python truthiness of a JSON value (used by `if relayoutData:`,
`if shapes_data:`, `if current_shapes:` and similar tests). -/
def truthy : JsonV → Bool
  | .null => false
  | .bool b => b
  | .num q => decide (q ≠ 0)
  | .str s => !s.isEmpty
  | .arr xs => !xs.isEmpty
  | .obj fs => !fs.isEmpty

/-- Python truthiness of an `n_clicks` value (`None` and `0` are falsy). -/
def truthyClicks : Option ℕ → Bool
  | none => false
  | some n => decide (n ≠ 0)

/-- Python `d.get(k, default)` on a JSON object; on a non-object the
source would raise, but every call site passes a dict. -/
def jGetD (j : JsonV) (k : String) (d : JsonV) : JsonV :=
  match j with
  | .obj fs => match fs.lookup k with
    | some v => v
    | none => d
  | _ => d

/-- Python `k in d` key-membership test on a JSON object. -/
def jHasKey (j : JsonV) (k : String) : Bool :=
  match j with
  | .obj fs => (fs.lookup k).isSome
  | _ => false

/-- Python `v in xs` for a string `v` and a JSON list `xs` (string
equality against each element; `==` with a non-string element is
`False`). -/
def hasStrL : List JsonV → String → Bool
  | [], _ => false
  | .str s :: rest, v => s = v || hasStrL rest v
  | _ :: rest, v => hasStrL rest v

/-- Python `v in j` for a string `v` when `j` is a JSON list (the type
every checklist control produces); on any other value the test is
`False` for our purposes. -/
def jHasStr (j : JsonV) (v : String) : Bool :=
  match j with
  | .arr xs => hasStrL xs v
  | _ => false

/-- Python `j == s` for a string literal `s` (equality with a non-string
value is `False`). -/
def jIsStr (j : JsonV) (s : String) : Bool :=
  match j with
  | .str t => t = s
  | _ => false

/-- Python dict assignment `d[k] = v`: replace the value of an existing
key in place (keeping its position), else append the new pair. -/
def setA (fs : List (String × JsonV)) (k : String) (v : JsonV) : List (String × JsonV) :=
  if (fs.lookup k).isSome then
    fs.map (fun p => if p.1 = k then (k, v) else p)
  else
    fs ++ [(k, v)]

/-- Dict assignment lifted to a JSON object value; the source only ever
assigns into dicts, so non-objects are left unchanged. -/
def jSet (j : JsonV) (k : String) (v : JsonV) : JsonV :=
  match j with
  | .obj fs => .obj (setA fs k v)
  | other => other

/-- Helper for Python substring containment: does the first character
list start the second? -/
def startsWithL : List Char → List Char → Bool
  | [], _ => true
  | _ :: _, [] => false
  | a :: as, b :: bs => a = b && startsWithL as bs

/-- Helper for Python substring containment over character lists. -/
def containsL (needle : List Char) : List Char → Bool
  | [] => needle.isEmpty
  | c :: rest => startsWithL needle (c :: rest) || containsL needle rest

/-- Python `needle in hay` substring containment on strings, as used on
`prop_id` trigger strings. -/
def strIn (needle hay : String) : Bool :=
  containsL needle.data hay.data

/-!
Configuration persistence (`load_config` / `save_config`,
tradeScape.py lines 21-49).  The raw file-system mechanics are an
external collaborator; a configuration file is modelled as absent,
present-but-unparseable, or present with a parsed JSON value.
-/

/-- State of the external `config.json` file as seen by `load_config`. -/
inductive ConfigFile where
  | absent : ConfigFile
  | corrupt : ConfigFile
  | stored : JsonV → ConfigFile

/-- Default configuration returned by `load_config` when the file is
missing or unreadable (tradeScape.py lines 30-45). -/
def default_config : JsonV :=
  .obj [("data_source", .str "yahoo"),
        ("stock", .str "AAPL"),
        ("time_period", .str "6mo"),
        ("interval", .str "1d"),
        ("chart_type", .str "candlestick"),
        ("extended_hours", .arr []),
        ("indicators", .arr [.str "ma"]),
        ("yaxis_position", .str "both"),
        ("bg_color", .str "white"),
        ("yaxis_dtick", .num 10),
        ("auto_refresh", .arr [.str "enabled"]),
        ("notes", .str ""),
        ("graph_state", .obj []),
        ("shapes", .arr [])]

/-- The `load_config` function: return the parsed file contents when the
file exists and parses, else the default configuration
(tradeScape.py lines 23-29). -/
def load_config : ConfigFile → JsonV
  | .stored j => j
  | _ => default_config

/-- Shapes seen by the layout at the next startup:
`self.config.get("shapes", [])` applied to the loaded configuration
(tradeScape.py line 377). -/
def startup_shapes (cf : ConfigFile) : JsonV :=
  jGetD (load_config cf) "shapes" (.arr [])

/-!
The `update_chart` coordinator (tradeScape.py lines 533-706).
Control values arrive as JSON data; the provider fetch is a blocking
external call whose outcome (a normalized time series, or a raised
exception carrying a message) is a parameter of the evaluation.
-/

/-- Control values feeding the chart-update callback (the eleven Dash
inputs other than the timer tick and the shapes store). -/
structure Settings where
  data_source : JsonV
  stock : JsonV
  time_period : JsonV
  interval : JsonV
  chart_type : JsonV
  extended_hours : JsonV
  indicators : JsonV
  yaxis_position : JsonV
  bg_color : JsonV
  yaxis_dtick : JsonV
  auto_refresh : JsonV

/-- The configuration dict built and persisted by `update_chart`
(tradeScape.py lines 541-554).  Note that it carries only the eleven
settings: no `notes`, `graph_state` or `shapes` key. -/
def settingsToJson (s : Settings) : JsonV :=
  .obj [("data_source", s.data_source),
        ("stock", s.stock),
        ("time_period", s.time_period),
        ("interval", s.interval),
        ("chart_type", s.chart_type),
        ("extended_hours", s.extended_hours),
        ("indicators", s.indicators),
        ("yaxis_position", s.yaxis_position),
        ("bg_color", s.bg_color),
        ("yaxis_dtick", s.yaxis_dtick),
        ("auto_refresh", s.auto_refresh)]

/-- Outcome of the blocking provider fetch performed inside the
`StockData` / `StockDataAlphaVantage` constructors: either a normalized
close series or a raised exception with its message. -/
inductive FetchOutcome where
  | ok : List ℚ → FetchOutcome
  | fail : String → FetchOutcome

/-- Shape redraw pass (tradeScape.py lines 701-704): ensure a `line`
dict exists, then set its `width` to `2`.  Plotly shape values are
always objects and their `line` values, when present, are objects. -/
def renderShape : JsonV → JsonV
  | .obj fs =>
      let fs1 := if (fs.lookup "line").isSome then fs else fs ++ [("line", .obj [])]
      let line1 := match fs1.lookup "line" with
        | some (.obj ls) => JsonV.obj (setA ls "width" (.num 2))
        | _ => JsonV.obj [("width", .num 2)]
      .obj (setA fs1 "line" line1)
  | other => other

/-- Line width a rendered shape object carries, read back out of the
shape's `line` dict. -/
def renderedWidth (sh : JsonV) : Option JsonV :=
  match sh with
  | .obj fs => match fs.lookup "line" with
    | some (.obj ls) => ls.lookup "width"
    | _ => none
  | _ => none

/-- Structural content of the figure built by `update_chart` that the
claims are about: panel layout (tradeScape.py lines 569-585) and the
redrawn shapes (lines 699-705).  Trace data is presentation only. -/
structure Figure where
  subplotTitles : List String
  totalRows : ℕ
  rsiRow : Option ℕ
  macdRow : Option ℕ
  renderedShapes : Option (List JsonV)

/-- Chart composition: the panel-row computation of tradeScape.py
lines 569-585 and the shape pass of lines 699-705.  `rsi_row`/`macd_row`
are `None` or the truthy numerals `2`/`3`, so Python truthiness of the
rows coincides with `Option.isSome`. -/
def compose (s : Settings) (shapes_data : JsonV) : Figure :=
  let rsiPresent := jHasStr s.indicators "rsi"
  let macdPresent := jHasStr s.indicators "macd"
  let extraRows := (if rsiPresent then 1 else 0) + (if macdPresent then 1 else 0)
  let rsiRow : Option ℕ := if rsiPresent then some 2 else none
  let macdRow : Option ℕ :=
    if macdPresent then (if rsiRow.isNone then some 2 else some 3) else none
  let totalRows := 1 + extraRows
  let t1 : List String := ["Price Chart"]
  let t2 := if rsiRow.isSome then t1 ++ ["RSI"] else t1
  let t3 := if macdRow.isSome then t2 ++ ["MACD"] else t2
  let rendered : Option (List JsonV) :=
    if truthy shapes_data then
      match shapes_data with
      | .arr xs => some (xs.map renderShape)
      | _ => none
    else none
  { subplotTitles := t3
    totalRows := totalRows
    rsiRow := rsiRow
    macdRow := macdRow
    renderedShapes := rendered }

/-- What one `update_chart` evaluation can emit: `dash.no_update`, the
placeholder error figure `go.Figure(... title=f"Error fetching ...")`
of line 562, or a composed figure. -/
inductive ChartOut where
  | noUpdate : ChartOut
  | errorFig : String → ChartOut
  | fig : Figure → ChartOut

/-- Observable result of one `update_chart` evaluation: whether a
provider fetch was performed, what configuration (if any) was written by
`save_config`, and the returned value — `Except.error` when an
exception escapes the callback. -/
structure EvalResult where
  didFetch : Bool
  saved : Option JsonV
  outcome : Except String ChartOut

/-- The `update_chart` callback (tradeScape.py lines 533-706).
`triggers` is the list of `prop_id` strings in
`callback_context.triggered`.  The timer gate (lines 536-539) returns
`dash.no_update` before any fetch or save.  Otherwise the settings are
persisted (lines 541-554) and the provider constructor runs: only the
`alpha_vantage` branch is wrapped in `try`/`except` (lines 558-562); the
`yahoo` branch and the default branch let a fetch exception propagate. -/
def update_chart (triggers : List String) (s : Settings) (shapes_data : JsonV)
    (fetch : FetchOutcome) : EvalResult :=
  let only_interval := triggers.all (fun t => strIn "interval-component.n_intervals" t)
  if only_interval ∧ ¬ (jHasStr s.auto_refresh "enabled" = true) then
    { didFetch := false, saved := none, outcome := .ok .noUpdate }
  else
    let cfg := settingsToJson s
    if jIsStr s.data_source "alpha_vantage" then
      match fetch with
      | .fail e =>
          { didFetch := true, saved := some cfg
            outcome := .ok (.errorFig ("Error fetching data: " ++ e)) }
      | .ok _ =>
          { didFetch := true, saved := some cfg
            outcome := .ok (.fig (compose s shapes_data)) }
    else
      match fetch with
      | .fail e => { didFetch := true, saved := some cfg, outcome := .error e }
      | .ok _ =>
          { didFetch := true, saved := some cfg
            outcome := .ok (.fig (compose s shapes_data)) }

/-!
The shape/view reducer `update_graph_and_shapes`
(tradeScape.py lines 422-439).
-/

/-- Python list comprehension
`[s for i, s in enumerate(xs) if i != idx]`. -/
def dropIdx (xs : List JsonV) (idx : ℕ) : List JsonV :=
  (xs.enum.filter (fun p => p.1 ≠ idx)).map (fun p => p.2)

/-- The combined relayout/delete/clear callback
(tradeScape.py lines 422-439).  `triggered` is the list of `prop_id`
strings of `callback_context.triggered`; the handler inspects the first
one by substring matching.  `selected_shape` is the dropdown value,
already parsed to the index it encodes (the dropdown only offers
`str(i)` values).  The shapes store always holds a JSON list, so the
delete branch's enumeration is only given arrays.  Returns the new
`(shapes-store, graph-state)` pair. -/
def update_graph_and_shapes (triggered : List String)
    (relayoutData : Option JsonV) (delete_click clear_click : Option ℕ)
    (selected_shape : Option ℕ) (current_shapes : JsonV)
    (current_graph_state : JsonV) : JsonV × JsonV :=
  match triggered.head? with
  | none => (current_shapes, current_graph_state)
  | some trigger =>
    if strIn "stock-graph.relayoutData" trigger then
      match relayoutData with
      | some rd =>
          if truthy rd then
            let cs := if jHasKey rd "shapes" then jGetD rd "shapes" .null else current_shapes
            (cs, rd)
          else (current_shapes, current_graph_state)
      | none => (current_shapes, current_graph_state)
    else if strIn "delete-shape-btn.n_clicks" trigger then
      if truthyClicks delete_click ∧ selected_shape ≠ none ∧ truthy current_shapes = true then
        match current_shapes, selected_shape with
        | .arr xs, some idx => (.arr (dropIdx xs idx), current_graph_state)
        | cs, _ => (cs, current_graph_state)
      else (current_shapes, current_graph_state)
    else if strIn "clear-shapes-btn.n_clicks" trigger then
      if truthyClicks clear_click then (.arr [], current_graph_state)
      else (current_shapes, current_graph_state)
    else (current_shapes, current_graph_state)

/-!
Work save/load (`save_work`, tradeScape.py lines 457-470, and
`load_work`, lines 491-514).
-/

/-- The `save_work` callback body: read the persisted configuration,
overwrite its `notes`, `graph_state` and `shapes` entries with the
current store values, and emit the result as the downloaded JSON
(tradeScape.py lines 465-470). -/
def save_work (cf : ConfigFile) (notes graph_state shapes_data : JsonV) : JsonV :=
  let c1 := jSet (load_config cf) "notes" notes
  let c2 := jSet c1 "graph_state" graph_state
  jSet c2 "shapes" shapes_data

/-- Result of the external decode pipeline applied to an upload:
the base64 decode may raise, `json.loads` may raise, or a JSON value is
produced (tradeScape.py lines 493-496). -/
inductive UploadContents where
  | badBase64 : UploadContents
  | badJson : UploadContents
  | parsed : JsonV → UploadContents

/-- The thirteen outputs `load_work` writes back to the controls and
stores (tradeScape.py lines 474-486).  The `extended-hours` control is
not among the callback's outputs. -/
structure LoadedOutputs where
  notes : JsonV
  data_source : JsonV
  stock : JsonV
  time_period : JsonV
  interval : JsonV
  chart_type : JsonV
  indicators : JsonV
  yaxis_position : JsonV
  bg_color : JsonV
  yaxis_dtick : JsonV
  auto_refresh : JsonV
  graph_state : JsonV
  shapes : JsonV

/-- Field extraction of `load_work` (tradeScape.py lines 499-513):
each output is `loaded_config.get(key, default)`. -/
def load_work_fields (j : JsonV) : LoadedOutputs :=
  { notes := jGetD j "notes" (.str "")
    data_source := jGetD j "data_source" (.str "yahoo")
    stock := jGetD j "stock" (.str "AAPL")
    time_period := jGetD j "time_period" (.str "6mo")
    interval := jGetD j "interval" (.str "1d")
    chart_type := jGetD j "chart_type" (.str "candlestick")
    indicators := jGetD j "indicators" (.arr [.str "ma"])
    yaxis_position := jGetD j "yaxis_position" (.str "both")
    bg_color := jGetD j "bg_color" (.str "white")
    yaxis_dtick := jGetD j "yaxis_dtick" (.num 10)
    auto_refresh := jGetD j "auto_refresh" (.arr [.str "enabled"])
    graph_state := jGetD j "graph_state" (.obj [])
    shapes := jGetD j "shapes" (.arr []) }

/-- The `load_work` callback (tradeScape.py lines 491-514).
`Except.ok none` is `dash.no_update` (no output written, silently);
`Except.ok (some o)` writes the thirteen outputs; `Except.error ()` is
an exception escaping the handler — `loaded_config.get` raises
`AttributeError` when the parsed payload is not a JSON object, and that
call sits outside the `try` of lines 494-498. -/
def load_work (contents : Option UploadContents) : Except Unit (Option LoadedOutputs) :=
  match contents with
  | none => .ok none
  | some .badBase64 => .ok none
  | some .badJson => .ok none
  | some (.parsed j) =>
    match j with
    | .obj fs => .ok (some (load_work_fields (.obj fs)))
    | _ => .error ()

/-- The import-then-export pipeline behind the save/load round trip:
upload a workspace JSON `w`; `load_work` writes the thirteen outputs;
the changed controls re-trigger `update_chart`, which persists the
settings built from the current controls — the `extended-hours`
control still holds its prior value `uiExt`, since `load_work` does not
write it; `save_work` then reads that persisted configuration back and
overrides `notes`, `graph_state` and `shapes` from the stores. -/
def exportAfterImport (uiExt : JsonV) (w : JsonV) : JsonV :=
  let lo := load_work_fields w
  let s : Settings :=
    { data_source := lo.data_source, stock := lo.stock
      time_period := lo.time_period, interval := lo.interval
      chart_type := lo.chart_type, extended_hours := uiExt
      indicators := lo.indicators, yaxis_position := lo.yaxis_position
      bg_color := lo.bg_color, yaxis_dtick := lo.yaxis_dtick
      auto_refresh := lo.auto_refresh }
  save_work (.stored (settingsToJson s)) lo.notes lo.graph_state lo.shapes

/-!
Indicator computations (tradeScape.py lines 69-90).  A close series is
a `List ℚ`; pandas NaN entries (insufficient lookback, and the `0/0`
ratio) are made explicit with `Option`.
-/

/-- Value of `delta = close.diff()` at index `i ≥ 1`
(tradeScape.py line 77); callers guard `1 ≤ i < length`. -/
def deltaAt (close : List ℚ) (i : ℕ) : ℚ :=
  close.getD i 0 - close.getD (i - 1) 0

/-- Value of `gain = delta.clip(lower=0)` at index `i ≥ 1`
(tradeScape.py line 78). -/
def gainAt (close : List ℚ) (i : ℕ) : ℚ :=
  max (deltaAt close i) 0

/-- Value of `loss = -delta.clip(upper=0)` at index `i ≥ 1`
(tradeScape.py line 79). -/
def lossAt (close : List ℚ) (i : ℕ) : ℚ :=
  -(min (deltaAt close i) 0)

/-- Value of `avg_gain = gain.rolling(window=w).mean()` at index `i`
(tradeScape.py line 80); the rolling window covers indices
`i - w + 1 .. i`, all of which name defined gains when `w ≤ i`. -/
def avg_gain (close : List ℚ) (w i : ℕ) : ℚ :=
  ((Finset.range w).sum (fun k => gainAt close (i - k))) / w

/-- Value of `avg_loss = loss.rolling(window=w).mean()` at index `i`
(tradeScape.py line 81). -/
def avg_loss (close : List ℚ) (w i : ℕ) : ℚ :=
  ((Finset.range w).sum (fun k => lossAt close (i - k))) / w

/-- The RSI series of `calculate_rsi` (tradeScape.py lines 76-83) at
index `i`.  `delta` is NaN at index `0`, so with pandas'
`min_periods = window` the rolling means are defined exactly when
`w ≤ i < length`.  Float semantics of `rs = avg_gain / avg_loss`:
when `avg_loss = 0` and `avg_gain > 0`, `rs = +inf` and
`100 - 100/(1 + rs) = 100`; when both are `0`, `rs` is NaN and the RSI
entry is NaN (modelled `none`). -/
def rsiAt (close : List ℚ) (w i : ℕ) : Option ℚ :=
  if w ≤ i ∧ i < close.length then
    if avg_loss close w i = 0 then
      if avg_gain close w i = 0 then none else some 100
    else some (100 - 100 / (1 + avg_gain close w i / avg_loss close w i))
  else none

/-- Value of `self.data['Close'].rolling(window=w).mean()` at index `i`
(tradeScape.py line 73); defined when the window
`i - w + 1 .. i` lies inside the series, i.e. `w ≤ i + 1 < length + 1`. -/
def smaSum (close : List ℚ) (w i : ℕ) : ℚ :=
  (Finset.range w).sum (fun k => close.getD (i - k) 0)

/-- The rolling-mean value itself. -/
def smaVal (close : List ℚ) (w i : ℕ) : ℚ :=
  smaSum close w i / w

/-- Sum of squared deviations from the rolling mean over the window
ending at `i`, the quantity under pandas' rolling `std`. -/
def sqDevSum (close : List ℚ) (w i : ℕ) : ℚ :=
  (Finset.range w).sum (fun k => (close.getD (i - k) 0 - smaVal close w i) ^ 2)

/-- Value of `self.data['Close'].rolling(window=w).std()` at index `i`
(tradeScape.py line 74).  pandas' `std` uses `ddof = 1`, dividing the
squared deviations by `w - 1` (the sample standard deviation). -/
noncomputable def rollingStd (close : List ℚ) (w i : ℕ) : ℝ :=
  Real.sqrt ((sqDevSum close w i : ℝ) / ((w : ℝ) - 1))

/-- The `UpperBand` column of `calculate_bollinger_bands`
(tradeScape.py line 74): `SMA + rolling_std * std_factor`, defined on
the same window as the rolling mean. -/
noncomputable def upperBandAt (close : List ℚ) (w : ℕ) (sf : ℚ) (i : ℕ) : Option ℝ :=
  if w ≤ i + 1 ∧ i < close.length then
    some ((smaVal close w i : ℝ) + rollingStd close w i * (sf : ℝ))
  else none

/-- The `LowerBand` column (tradeScape.py line 75):
`SMA - rolling_std * std_factor`. -/
noncomputable def lowerBandAt (close : List ℚ) (w : ℕ) (sf : ℚ) (i : ℕ) : Option ℝ :=
  if w ≤ i + 1 ∧ i < close.length then
    some ((smaVal close w i : ℝ) - rollingStd close w i * (sf : ℝ))
  else none

/-- Modelled from the spec: the upper Bollinger band as §4.2 words it,
rolling mean plus `std_factor` times the rolling **population**
standard deviation (squared deviations divided by `w`, not `w - 1`). -/
noncomputable def upperBandPopulationSpec (close : List ℚ) (w : ℕ) (sf : ℚ) (i : ℕ) :
    Option ℝ :=
  if w ≤ i + 1 ∧ i < close.length then
    some ((smaVal close w i : ℝ) +
      Real.sqrt ((sqDevSum close w i : ℝ) / (w : ℝ)) * (sf : ℝ))
  else none

/-- Sample variance over the window ending at `i` in its computational
form `(w·Σx² − (Σx)²) / (w·(w−1))`, used to state the amended
Bollinger-band claim independently of the code's formulation. -/
def sampleVarSpec (close : List ℚ) (w i : ℕ) : ℚ :=
  ((w : ℚ) * (Finset.range w).sum (fun k => (close.getD (i - k) 0) ^ 2) -
      (smaSum close w i) ^ 2) / ((w : ℚ) * ((w : ℚ) - 1))

/-!
Concrete values used by witnesses and counterexamples.
-/

/-- Settings with auto-refresh disabled (empty checklist), Yahoo source. -/
def settingsA : Settings :=
  { data_source := .str "yahoo", stock := .str "AAPL"
    time_period := .str "6mo", interval := .str "1d"
    chart_type := .str "candlestick", extended_hours := .arr []
    indicators := .arr [.str "ma"], yaxis_position := .str "both"
    bg_color := .str "white", yaxis_dtick := .num 10
    auto_refresh := .arr [] }

/-- Settings with auto-refresh enabled and Alpha Vantage as provider. -/
def settingsAV : Settings :=
  { settingsA with data_source := .str "alpha_vantage"
                   auto_refresh := .arr [.str "enabled"] }

/-- Settings with auto-refresh enabled, Yahoo source, RSI and MACD on. -/
def settingsBoth : Settings :=
  { settingsA with indicators := .arr [.str "rsi", .str "macd"]
                   auto_refresh := .arr [.str "enabled"] }

/-!
Claim theorems.
-/

/-- C1: when the only prop_id in `callback_context.triggered` is
the timer tick and `auto_refresh` does not contain `"enabled"`, the
`update_chart` evaluation is a no-op: no provider fetch, no persisted
configuration, and `dash.no_update` (the previous chart output stays). -/
theorem C1_timer_noop (s : Settings) (shapes_data : JsonV) (fetch : FetchOutcome)
    (h : jHasStr s.auto_refresh "enabled" = false) :
    update_chart ["interval-component.n_intervals"] s shapes_data fetch =
      { didFetch := false, saved := none, outcome := .ok .noUpdate } := by
  unfold update_chart
  rw [if_pos]
  refine ⟨by decide, ?_⟩
  simp [h]

/-- C1 witness: the no-op at concrete disabled-auto-refresh settings. -/
theorem C1_timer_noop_witness :
    jHasStr settingsA.auto_refresh "enabled" = false ∧
    update_chart ["interval-component.n_intervals"] settingsA (JsonV.arr [])
        (FetchOutcome.ok []) =
      { didFetch := false, saved := none, outcome := .ok .noUpdate } :=
  ⟨rfl, C1_timer_noop settingsA (JsonV.arr []) (FetchOutcome.ok []) rfl⟩

/-- C2 counterexample: with the Yahoo provider selected and a failing
fetch, the exception escapes `update_chart` — no placeholder error
chart is produced, refuting the for-every-provider claim. -/
theorem C2_yahoo_propagates :
    (update_chart ["stock-dropdown.value"] settingsA (JsonV.arr [])
        (FetchOutcome.fail "boom")).outcome = Except.error "boom" ∧
    (update_chart ["stock-dropdown.value"] settingsA (JsonV.arr [])
        (FetchOutcome.fail "boom")).outcome ≠
      Except.ok (ChartOut.errorFig "Error fetching data: boom") := by
  have h0 : (update_chart ["stock-dropdown.value"] settingsA (JsonV.arr [])
      (FetchOutcome.fail "boom")).outcome = Except.error "boom" := rfl
  exact ⟨h0, by rw [h0]; exact fun hc => Except.noConfusion hc⟩

/-- C2 (amended): in any evaluation that passes the timer gate, a fetch
failure is caught and converted into the placeholder error figure only
when the selected provider is `alpha_vantage`; for the Yahoo (or any
other) provider the failure propagates out of the evaluation. -/
theorem C2_error_catching (triggers : List String) (s : Settings) (sd : JsonV)
    (e : String)
    (hrun : ¬((triggers.all (fun t => strIn "interval-component.n_intervals" t)) ∧
        ¬(jHasStr s.auto_refresh "enabled" = true))) :
    (jIsStr s.data_source "alpha_vantage" = true →
      (update_chart triggers s sd (.fail e)).outcome =
        Except.ok (ChartOut.errorFig ("Error fetching data: " ++ e))) ∧
    (jIsStr s.data_source "alpha_vantage" = false →
      (update_chart triggers s sd (.fail e)).outcome = Except.error e) := by
  unfold update_chart
  rw [if_neg hrun]
  constructor
  · intro hav; simp [hav]
  · intro hav; simp [hav]

/-- C2 witness: the amended behaviour at concrete settings — caught for
Alpha Vantage, propagated for Yahoo. -/
theorem C2_error_catching_witness :
    (update_chart ["stock-dropdown.value"] settingsAV (JsonV.arr [])
        (.fail "net down")).outcome =
      Except.ok (ChartOut.errorFig "Error fetching data: net down") ∧
    (update_chart ["stock-dropdown.value"] settingsA (JsonV.arr [])
        (.fail "net down")).outcome = Except.error "net down" :=
  ⟨(C2_error_catching ["stock-dropdown.value"] settingsAV (JsonV.arr [])
      "net down" (by decide)).1 rfl,
   (C2_error_catching ["stock-dropdown.value"] settingsA (JsonV.arr [])
      "net down" (by decide)).2 rfl⟩

/-- C9: the composed layout always puts the price panel first; RSI, when
selected, is the second panel (row 2); MACD occupies row 3 when RSI is
also selected and row 2 otherwise; there are at most 3 panels; with both
selected the order is [price, RSI, MACD], and the order
[price, MACD, RSI] never occurs. -/
theorem C9_panel_order (s : Settings) (sd : JsonV) :
    (compose s sd).subplotTitles.head? = some "Price Chart" ∧
    (compose s sd).totalRows = (compose s sd).subplotTitles.length ∧
    (compose s sd).totalRows ≤ 3 ∧
    (jHasStr s.indicators "rsi" = true →
      (compose s sd).rsiRow = some 2 ∧
      (compose s sd).subplotTitles.get? 1 = some "RSI") ∧
    (jHasStr s.indicators "macd" = true → jHasStr s.indicators "rsi" = true →
      (compose s sd).macdRow = some 3 ∧
      (compose s sd).subplotTitles.get? 2 = some "MACD") ∧
    (jHasStr s.indicators "macd" = true → jHasStr s.indicators "rsi" = false →
      (compose s sd).macdRow = some 2 ∧
      (compose s sd).subplotTitles.get? 1 = some "MACD") ∧
    (jHasStr s.indicators "rsi" = true → jHasStr s.indicators "macd" = true →
      (compose s sd).subplotTitles = ["Price Chart", "RSI", "MACD"]) ∧
    (compose s sd).subplotTitles ≠ ["Price Chart", "MACD", "RSI"] := by
  cases h1 : jHasStr s.indicators "rsi" <;>
    cases h2 : jHasStr s.indicators "macd" <;>
      simp [compose, h1, h2]

/-- C9 witness: with RSI and MACD both selected the panel titles are
exactly [price, RSI, MACD] and MACD sits on row 3. -/
theorem C9_panel_order_witness :
    (compose settingsBoth (JsonV.arr [])).subplotTitles =
      ["Price Chart", "RSI", "MACD"] ∧
    (compose settingsBoth (JsonV.arr [])).rsiRow = some 2 ∧
    (compose settingsBoth (JsonV.arr [])).macdRow = some 3 :=
  ⟨((C9_panel_order settingsBoth (JsonV.arr [])).2.2.2.2.2.2.1 rfl rfl),
   ((C9_panel_order settingsBoth (JsonV.arr [])).2.2.2.1 rfl).1,
   ((C9_panel_order settingsBoth (JsonV.arr [])).2.2.2.2.1 rfl rfl).1⟩

/-- C10: a delete-selected-shape trigger and a clear-all-shapes trigger
leave the graph-view-state store unchanged — only the shapes store may
differ between input and output of `update_graph_and_shapes`. -/
theorem C10_delete_clear_preserve_view (relayoutData : Option JsonV)
    (delete_click clear_click : Option ℕ) (selected_shape : Option ℕ)
    (shapes gs : JsonV) :
    (update_graph_and_shapes ["delete-shape-btn.n_clicks"] relayoutData
      delete_click clear_click selected_shape shapes gs).2 = gs ∧
    (update_graph_and_shapes ["clear-shapes-btn.n_clicks"] relayoutData
      delete_click clear_click selected_shape shapes gs).2 = gs := by
  constructor
  · unfold update_graph_and_shapes
    simp only [List.head?]
    rw [if_neg (by decide), if_pos (by decide)]
    split
    · rename_i hcond
      rcases shapes with _ | _ | _ | _ | xs | _ <;> rcases selected_shape with _ | idx <;> rfl
    · rfl
  · unfold update_graph_and_shapes
    simp only [List.head?]
    rw [if_neg (by decide), if_neg (by decide), if_pos (by decide)]
    split <;> rfl

/-- Looking up a key after a dict assignment of that key yields the
assigned value. -/
theorem lookup_setA (fs : List (String × JsonV)) (k : String) (v : JsonV) :
    (setA fs k v).lookup k = some v := by
  induction fs with
  | nil => simp [setA, List.lookup]
  | cons p t ih =>
      obtain ⟨a, b⟩ := p
      unfold setA at ih ⊢
      by_cases hp : a = k
      · subst hp
        simp [List.lookup_cons]
      · have hba : (k == a) = false := beq_false_of_ne (Ne.symm hp)
        have hcons : List.lookup k ((a, b) :: t) = List.lookup k t := by
          rw [List.lookup_cons, hba]
        by_cases hts : (List.lookup k t).isSome = true
        · rw [if_pos (by rw [hcons]; exact hts)]
          rw [if_pos hts] at ih
          rw [List.map_cons]
          rw [show (if (a, b).1 = k then (k, v) else (a, b)) = (a, b) from if_neg hp]
          rw [List.lookup_cons, hba]
          exact ih
        · rw [if_neg (by rw [hcons]; exact hts)]
          rw [if_neg hts] at ih
          rw [List.cons_append, List.lookup_cons, hba]
          exact ih

/-- Every shape object emerging from the redraw pass carries line width
exactly 2. -/
theorem renderShape_width (fs : List (String × JsonV)) :
    renderedWidth (renderShape (.obj fs)) = some (JsonV.num 2) := by
  unfold renderShape renderedWidth
  cases h : (if (List.lookup "line" fs).isSome = true then fs
      else fs ++ [("line", JsonV.obj [])]).lookup "line" with
  | none =>
      simp only [h, lookup_setA]
      rfl
  | some lv =>
      cases lv <;> simp only [h, lookup_setA] <;> rfl

/-- A shape whose stored line width is 5. -/
def shapeWide : JsonV :=
  .obj [("type", .str "line"), ("line", .obj [("width", .num 5)])]

/-- C6 counterexample: a persisted shape with stored width 5 is rendered
with width 2, not with `max 5 2 = 5` as the claim requires. -/
theorem C6_width_not_max :
    (compose settingsA (JsonV.arr [shapeWide])).renderedShapes =
      some [renderShape shapeWide] ∧
    renderedWidth (renderShape shapeWide) = some (JsonV.num 2) ∧
    JsonV.num 2 ≠ JsonV.num (max 5 2) := by
  refine ⟨rfl, rfl, ?_⟩
  intro h
  injection h with h2
  norm_num at h2

/-- C6 (amended): when the chart is composed from a non-empty shape
list, every persisted shape is redrawn, and the rendered line width is
exactly 2 for every shape, regardless of the stored width. -/
theorem C6_width_always_two (s : Settings) (xs : List JsonV) (h : xs ≠ []) :
    (compose s (.arr xs)).renderedShapes = some (xs.map renderShape) ∧
    ∀ fs : List (String × JsonV),
      renderedWidth (renderShape (.obj fs)) = some (JsonV.num 2) := by
  constructor
  · simp [compose, truthy, h]
  · exact renderShape_width

/-- C6 witness: the amended statement at a concrete one-shape list. -/
theorem C6_width_always_two_witness :
    [shapeWide] ≠ ([] : List JsonV) ∧
    (compose settingsA (.arr [shapeWide])).renderedShapes =
      some ([shapeWide].map renderShape) ∧
    renderedWidth (renderShape (.obj [("line", .obj [("width", .num 5)])])) =
      some (JsonV.num 2) :=
  ⟨by simp, (C6_width_always_two settingsA [shapeWide] (by simp)).1,
   (C6_width_always_two settingsA [shapeWide] (by simp)).2
     [("line", .obj [("width", .num 5)])]⟩

/-- Is the JSON value an object (a Python dict)? -/
def isJObj : JsonV → Bool
  | .obj _ => true
  | _ => false

/-- C8 counterexample: a payload that decodes and parses to a JSON
array — hence cannot be parsed as a workspace JSON object — makes
`load_work` raise (the `.get` calls sit outside the `try`), rather than
silently returning `dash.no_update` as the claim requires. -/
theorem C8_array_payload_raises :
    load_work (some (.parsed (JsonV.arr []))) = Except.error () ∧
    load_work (some (.parsed (JsonV.arr []))) ≠ Except.ok none := by
  refine ⟨rfl, ?_⟩
  intro h
  have h0 : load_work (some (.parsed (JsonV.arr []))) = Except.error () := rfl
  rw [h0] at h
  exact Except.noConfusion h

/-- C8 (amended): an upload whose base64 decode or JSON parse fails (or
an absent upload) is a silent no-op — `load_work` returns
`dash.no_update` and every workspace field is left untouched; a payload
that parses to a non-object JSON value instead raises out of the
handler, which still writes no workspace field. -/
theorem C8_silent_on_parse_failure :
    (load_work none = .ok none ∧
     load_work (some .badBase64) = .ok none ∧
     load_work (some .badJson) = .ok none) ∧
    ∀ j : JsonV, isJObj j = false →
      load_work (some (.parsed j)) = .error () ∧
      ∀ o : LoadedOutputs, load_work (some (.parsed j)) ≠ .ok (some o) := by
  refine ⟨⟨rfl, rfl, rfl⟩, ?_⟩
  intro j hj
  cases j <;> simp_all [load_work, isJObj]

/-- C8 witness: the amended statement at concrete payloads. -/
theorem C8_silent_on_parse_failure_witness :
    load_work (some .badJson) = .ok none ∧
    isJObj (JsonV.num 3) = false ∧
    load_work (some (.parsed (JsonV.num 3))) = .error () :=
  ⟨(C8_silent_on_parse_failure).1.2.2, rfl,
   ((C8_silent_on_parse_failure).2 (JsonV.num 3) rfl).1⟩

/-- A workspace export with extended hours enabled. -/
def wExt : JsonV :=
  .obj [("data_source", .str "yahoo"),
        ("stock", .str "TSLA"),
        ("time_period", .str "6mo"),
        ("interval", .str "1d"),
        ("chart_type", .str "line"),
        ("extended_hours", .arr [.str "extended"]),
        ("indicators", .arr [.str "ma"]),
        ("yaxis_position", .str "both"),
        ("bg_color", .str "white"),
        ("yaxis_dtick", .num 10),
        ("auto_refresh", .arr [.str "enabled"]),
        ("notes", .str "my notes"),
        ("graph_state", .obj []),
        ("shapes", .arr [])]

/-- C4: the save/load round trip loses the `extended_hours` field —
`load_work` does not write the `extended-hours` control, so exporting
after importing `wExt` (with the control currently empty) yields a
workspace whose `extended_hours` is `[]`, not `["extended"]`. -/
theorem C4_extended_hours_lost :
    jGetD (exportAfterImport (.arr []) wExt) "extended_hours" .null =
      JsonV.arr [] ∧
    jGetD wExt "extended_hours" .null = JsonV.arr [.str "extended"] ∧
    exportAfterImport (.arr []) wExt ≠ wExt := by
  refine ⟨rfl, rfl, ?_⟩
  intro h
  have h1 : jGetD (exportAfterImport (.arr []) wExt) "extended_hours" .null =
      jGetD wExt "extended_hours" .null := by rw [h]
  have h2 : JsonV.arr [] = JsonV.arr [JsonV.str "extended"] := by
    calc JsonV.arr [] = jGetD (exportAfterImport (.arr []) wExt) "extended_hours" .null := rfl
    _ = jGetD wExt "extended_hours" .null := h1
    _ = JsonV.arr [JsonV.str "extended"] := rfl
  injection h2 with h3
  exact List.noConfusion h3

/-- A single freehand shape as stored by the shapes store. -/
def shapeLine : JsonV := .obj [("type", .str "line")]

/-- Settings with auto-refresh enabled and Yahoo as provider. -/
def settingsY : Settings :=
  { settingsA with auto_refresh := .arr [.str "enabled"] }

/-- C5: a chart-rebuild evaluation persists a configuration without any
`shapes` key, so reloading that configuration at the next startup
yields the empty shape list even though the in-memory workspace held a
shape at persistence time. -/
theorem C5_shapes_not_persisted :
    (update_chart ["stock-dropdown.value"] settingsY (JsonV.arr [shapeLine])
        (FetchOutcome.ok [])).saved = some (settingsToJson settingsY) ∧
    startup_shapes (.stored (settingsToJson settingsY)) = JsonV.arr [] ∧
    JsonV.arr [] ≠ JsonV.arr [shapeLine] := by
  refine ⟨rfl, rfl, ?_⟩
  intro h
  injection h with h1
  exact List.noConfusion h1

/-- C3: every defined RSI value (14-bar simple rolling means of gains
and losses) lies in [0, 100], and wherever the rolling average loss is 0
and RSI is defined, the value is exactly 100. -/
theorem C3_rsi_bounds (close : List ℚ) (i : ℕ) (v : ℚ)
    (h : rsiAt close 14 i = some v) :
    (0 ≤ v ∧ v ≤ 100) ∧ (avg_loss close 14 i = 0 → v = 100) := by
  unfold rsiAt at h
  by_cases hg : 14 ≤ i ∧ i < close.length
  · rw [if_pos hg] at h
    by_cases hl : avg_loss close 14 i = 0
    · rw [if_pos hl] at h
      by_cases hga : avg_gain close 14 i = 0
      · rw [if_pos hga] at h
        exact absurd h (by simp)
      · rw [if_neg hga] at h
        have hv : (100 : ℚ) = v := Option.some.inj h
        exact ⟨⟨by linarith, by linarith⟩, fun _ => hv.symm⟩
    · rw [if_neg hl] at h
      have hv : 100 - 100 / (1 + avg_gain close 14 i / avg_loss close 14 i) = v :=
        Option.some.inj h
      have hg0 : 0 ≤ avg_gain close 14 i :=
        div_nonneg (Finset.sum_nonneg fun k _ => le_max_right _ _) (by norm_num)
      have hl0 : 0 ≤ avg_loss close 14 i :=
        div_nonneg
          (Finset.sum_nonneg fun k _ => neg_nonneg.mpr (min_le_right _ _))
          (by norm_num)
      have hr0 : 0 ≤ avg_gain close 14 i / avg_loss close 14 i :=
        div_nonneg hg0 hl0
      have h1r : (1 : ℚ) ≤ 1 + avg_gain close 14 i / avg_loss close 14 i := by
        linarith
      have hfle : 100 / (1 + avg_gain close 14 i / avg_loss close 14 i) ≤ 100 :=
        div_le_self (by norm_num) h1r
      have hfnn : 0 ≤ 100 / (1 + avg_gain close 14 i / avg_loss close 14 i) :=
        div_nonneg (by norm_num) (by linarith)
      exact ⟨⟨by linarith, by linarith⟩, fun hc => absurd hc hl⟩
  · rw [if_neg hg] at h
    exact absurd h (by simp)

/-- A 15-bar close series alternating 0 and 1 (gains and losses both
present in the 14-bar window ending at the last bar). -/
def closeAlt : List ℚ := [0, 1, 0, 1, 0, 1, 0, 1, 0, 1, 0, 1, 0, 1, 0]

/-- A strictly increasing 15-bar close series (rolling average loss 0
at the last bar). -/
def closeInc : List ℚ := [0, 1, 2, 3, 4, 5, 6, 7, 8, 9, 10, 11, 12, 13, 14]

set_option maxHeartbeats 2000000 in
/-- C3 witness: a defined mixed-window RSI value (50) within bounds, and
a zero-average-loss window saturating at exactly 100. -/
theorem C3_rsi_bounds_witness :
    rsiAt closeAlt 14 14 = some 50 ∧ (0 ≤ (50 : ℚ) ∧ (50 : ℚ) ≤ 100) ∧
    avg_loss closeInc 14 14 = 0 ∧ rsiAt closeInc 14 14 = some 100 ∧
    (100 : ℚ) = 100 := by
  have hga : avg_gain closeAlt 14 14 = 1 / 2 := by
    norm_num [avg_gain, gainAt, deltaAt, closeAlt, Finset.sum_range_succ,
      List.getD]
  have hla : avg_loss closeAlt 14 14 = 1 / 2 := by
    norm_num [avg_loss, lossAt, deltaAt, closeAlt, Finset.sum_range_succ,
      List.getD]
  have hli : avg_loss closeInc 14 14 = 0 := by
    norm_num [avg_loss, lossAt, deltaAt, closeInc, Finset.sum_range_succ,
      List.getD]
  have hgi : avg_gain closeInc 14 14 = 1 := by
    norm_num [avg_gain, gainAt, deltaAt, closeInc, Finset.sum_range_succ,
      List.getD]
  have hra : rsiAt closeAlt 14 14 = some 50 := by
    unfold rsiAt
    rw [if_pos (by constructor <;> decide), if_neg (by rw [hla]; norm_num),
      hga, hla]
    norm_num
  have hri : rsiAt closeInc 14 14 = some 100 := by
    unfold rsiAt
    rw [if_pos (by constructor <;> decide), if_pos hli,
      if_neg (by rw [hgi]; norm_num)]
  exact ⟨hra, (C3_rsi_bounds closeAlt 14 50 hra).1, hli, hri,
    (C3_rsi_bounds closeInc 14 100 hri).2 hli⟩

/-- A 20-bar close series: nineteen zeros then one 20 (sample variance
20, population variance 19 over the full window). -/
def closesJump : List ℚ :=
  [0, 0, 0, 0, 0, 0, 0, 0, 0, 0, 0, 0, 0, 0, 0, 0, 0, 0, 0, 20]

set_option maxHeartbeats 2000000 in
/-- C7 counterexample: on a concrete 20-bar series the code's upper band
(sample standard deviation, pandas `std()` with `ddof = 1`) differs from
the claimed population-standard-deviation band. -/
theorem C7_not_population_std :
    upperBandAt closesJump 20 2 19 ≠ upperBandPopulationSpec closesJump 20 2 19 := by
  have hm : smaVal closesJump 20 19 = 1 := by
    norm_num [smaVal, smaSum, closesJump, Finset.sum_range_succ, List.getD]
  have hd : sqDevSum closesJump 20 19 = 380 := by
    unfold sqDevSum
    simp only [hm]
    norm_num [closesJump, Finset.sum_range_succ, List.getD]
  have hlen : 20 ≤ 19 + 1 ∧ 19 < closesJump.length := by
    constructor <;> decide
  have hcode : upperBandAt closesJump 20 2 19 =
      some ((1 : ℝ) + Real.sqrt 20 * 2) := by
    unfold upperBandAt rollingStd
    rw [if_pos hlen, hd, hm]
    norm_num
  have hspec : upperBandPopulationSpec closesJump 20 2 19 =
      some ((1 : ℝ) + Real.sqrt 19 * 2) := by
    unfold upperBandPopulationSpec
    rw [if_pos hlen, hd, hm]
    norm_num
  rw [hcode, hspec]
  intro h
  have h2 : (1 : ℝ) + Real.sqrt 20 * 2 = 1 + Real.sqrt 19 * 2 :=
    Option.some.inj h
  have h3 : Real.sqrt 19 < Real.sqrt 20 :=
    Real.sqrt_lt_sqrt (by norm_num) (by norm_num)
  linarith

/-- The sum of squared deviations over the 20-bar window, divided by 19,
is the sample variance in its computational form. -/
theorem sqDevSum_sample (close : List ℚ) (i : ℕ) :
    sqDevSum close 20 i / 19 = sampleVarSpec close 20 i := by
  unfold sqDevSum sampleVarSpec smaVal
  push_cast
  have hexp : ∀ k ∈ Finset.range 20,
      (close.getD (i - k) 0 - smaSum close 20 i / 20) ^ 2 =
        (close.getD (i - k) 0) ^ 2 -
          2 * (smaSum close 20 i / 20) * close.getD (i - k) 0 +
          (smaSum close 20 i / 20) ^ 2 := fun k _ => by ring
  rw [Finset.sum_congr rfl hexp]
  rw [Finset.sum_add_distrib, Finset.sum_sub_distrib, ← Finset.mul_sum]
  rw [Finset.sum_const, Finset.card_range, nsmul_eq_mul]
  have hS : (Finset.range 20).sum (fun k => close.getD (i - k) 0) =
      smaSum close 20 i := rfl
  rw [hS]
  field_simp
  ring

/-- C7 (amended): wherever the Bollinger columns are defined, they equal
the 20-bar rolling mean of close plus/minus 2 times the 20-bar rolling
**sample** standard deviation (`ddof = 1`, divisor 19), stated through
the computational sample-variance formula. -/
theorem C7_bands_sample_std (close : List ℚ) (i : ℕ)
    (h : 20 ≤ i + 1 ∧ i < close.length) :
    upperBandAt close 20 2 i =
      some ((smaVal close 20 i : ℝ) +
        Real.sqrt ((sampleVarSpec close 20 i : ℝ)) * 2) ∧
    lowerBandAt close 20 2 i =
      some ((smaVal close 20 i : ℝ) -
        Real.sqrt ((sampleVarSpec close 20 i : ℝ)) * 2) := by
  have hvar : ((sqDevSum close 20 i : ℚ) : ℝ) / ((20 : ℕ) - 1 : ℝ) =
      ((sampleVarSpec close 20 i : ℚ) : ℝ) := by
    rw [← sqDevSum_sample close i]
    push_cast
    ring
  constructor
  · unfold upperBandAt rollingStd
    rw [if_pos h]
    rw [hvar]
    norm_num
  · unfold lowerBandAt rollingStd
    rw [if_pos h]
    rw [hvar]
    norm_num

/-- A flat 20-bar close series. -/
def closesFlat : List ℚ := List.replicate 20 1

/-- C7 witness: the amended band equations at a concrete in-range index
of a concrete series. -/
theorem C7_bands_sample_std_witness :
    (20 ≤ 19 + 1 ∧ 19 < closesFlat.length) ∧
    (upperBandAt closesFlat 20 2 19 =
      some ((smaVal closesFlat 20 19 : ℝ) +
        Real.sqrt ((sampleVarSpec closesFlat 20 19 : ℝ)) * 2) ∧
     lowerBandAt closesFlat 20 2 19 =
      some ((smaVal closesFlat 20 19 : ℝ) -
        Real.sqrt ((sampleVarSpec closesFlat 20 19 : ℝ)) * 2)) :=
  ⟨⟨by decide, by decide⟩, C7_bands_sample_std closesFlat 19 ⟨by decide, by decide⟩⟩

end TradeScape
